import Mathlib

/-!
Verification of the documentation build configuration of the Merlon
repository (`docs/conf.py`) against its natural-language specification.

The configuration module is a Python file evaluated once by Sphinx.  We
embed it shallowly: Python values appearing in the file become a `PyValue`
inductive; the sequence of module-level assignments becomes an association
list of bindings; module evaluation becomes a function from the external
environment (whether the `merlon` package is importable and what its
`version()` call returns) to either an error or the final bindings.
-/

/-- A Python value of one of the shapes occurring in `docs/conf.py`:
strings, booleans, integers, lists, and string-keyed dicts. -/
inductive PyValue where
  | str : String → PyValue
  | bool : Bool → PyValue
  | int : Int → PyValue
  | list : List PyValue → PyValue
  | dict : List (String × PyValue) → PyValue
deriving Repr

/-- `True` exactly on string values. -/
def PyValue.isStr : PyValue → Bool
  | .str _ => true
  | _ => false

/-- `True` exactly on lists whose elements are all strings. -/
def PyValue.isStrList : PyValue → Bool
  | .list xs => xs.all (fun v => v.isStr)
  | _ => false

/-- `True` exactly on dict values. -/
def PyValue.isDict : PyValue → Bool
  | .dict _ => true
  | _ => false

/-- The external `merlon` package as the configuration file sees it: it may
or may not expose a callable `version`; when it does, the call returns some
string (the package's version). -/
structure MerlonModule where
  version : Option String

/-- The environment in which the configuration module is evaluated:
`merlon = none` models an environment where `import merlon` raises. -/
structure Env where
  merlon : Option MerlonModule

/-- The ways evaluating `docs/conf.py` can raise: `import merlon` fails, or
`merlon.version` is absent / not callable. -/
inductive ConfError where
  | importError
  | attributeError
deriving DecidableEq, Repr

/-- The triple-quoted `copyright` string literal of `docs/conf.py`,
character for character. -/
def copyrightText : String :=
  "\n2023, Alex Bates.\n\nThe author is not affiliated with Nintendo Co., Ltd. in any way.\n\nThe PAPER MARIO trademark owned by Nintendo Co., Ltd. is used in this modding tool under the fair use doctrine, solely\nfor the purpose of enabling users to modify the game in a transformative manner.\n\nMods packaged into a distributable with this application are encrypted using the original game ROM, and cannot be used\nwithout the original game ROM. No guarantees are made about the legal status of using this application to create mods\n"

/-- The `html_theme_options` dict literal of `docs/conf.py`, in source
order. -/
def themeOptions : List (String × PyValue) :=
  [ ("analytics_id", .str "G-LCC88CM7GF"),
    ("analytics_anonymize_ip", .bool true),
    ("logo_only", .bool true),
    ("display_version", .bool true),
    ("prev_next_buttons_location", .str "bottom"),
    ("style_external_links", .bool false),
    ("vcs_pageview_mode", .str ""),
    ("style_nav_header_background", .str "#534295"),
    ("collapse_navigation", .bool false),
    ("sticky_navigation", .bool true),
    ("navigation_depth", .int 4),
    ("includehidden", .bool true),
    ("titles_only", .bool false) ]

/-- The module-level assignments of `docs/conf.py`, in source order.  The
only non-literal right-hand side in the file is `version = merlon.version()`;
`ver` is the string that call returned. -/
def confBindings (ver : String) : List (String × PyValue) :=
  [ ("project", .str "Merlon"),
    ("copyright", .str copyrightText),
    ("author", .str "Alex Bates"),
    ("version", .str ver),
    ("extensions", .list
      [ .str "sphinx.ext.autodoc",
        .str "sphinx.ext.autosummary",
        .str "sphinx.ext.coverage",
        .str "myst\x5fparser",
        .str "sphinx_copybutton" ]),
    ("templates_path", .list [.str "_templates"]),
    ("exclude_patterns", .list [.str "_build", .str "Thumbs.db", .str ".DS_Store"]),
    ("copybutton_prompt_text", .str "$ "),
    ("copybutton_exclude", .str ".linenos, .gp, .go"),
    ("html_theme", .str "sphinx_rtd_theme"),
    ("html_static_path", .list [.str "_static"]),
    ("html_logo", .str "../assets/logo/logotype-docs.png"),
    ("html_favicon", .str "../assets/logo/merlon.ico"),
    ("html_theme_options", .dict themeOptions),
    ("autosummary_generate", .bool true),
    ("autoclass_content", .str "both") ]

/-- Evaluating the module `docs/conf.py` in environment `env`: the file
first runs `import merlon` (raising `ImportError` if the package cannot
be imported), then its one non-literal assignment calls `merlon.version()`
(raising `AttributeError` if the package has no such callable), and the
remaining assignments are literal and cannot fail. -/
def evalConf (env : Env) : Except ConfError (List (String × PyValue)) :=
  match env.merlon with
  | none => .error .importError
  | some m =>
    match m.version with
    | none => .error .attributeError
    | some v => .ok (confBindings v)

/-- The fourteen top-level configuration names the specification lists. -/
def specNames : List String :=
  [ "project", "copyright", "author", "version", "extensions",
    "templates_path", "exclude_patterns", "html_theme", "html_static_path",
    "html_logo", "html_favicon", "html_theme_options",
    "autosummary_generate", "autoclass_content" ]

/-- The names actually bound at top level by `docs/conf.py`, in source
order. -/
def confNames : List String :=
  [ "project", "copyright", "author", "version", "extensions",
    "templates_path", "exclude_patterns",
    "copybutton_prompt_text", "copybutton_exclude",
    "html_theme", "html_static_path", "html_logo", "html_favicon",
    "html_theme_options", "autosummary_generate", "autoclass_content" ]

/-- `True` when the binding list binds `n` to a value satisfying `p`. -/
def boundWithShape (bs : List (String × PyValue)) (n : String)
    (p : PyValue → Bool) : Bool :=
  match bs.lookup n with
  | some v => p v
  | none => false

/-- The relative paths of the source files supplied with the repository:
the sole file is `docs/conf.py`. -/
def sourceFiles : List String := ["docs/conf.py"]

/-- Helper: the eight names `docs/conf.py` binds to plain strings. -/
def strValueNames : List String :=
  [ "project", "copyright", "author", "version", "html_theme",
    "html_logo", "html_favicon", "autoclass_content" ]

/-- Helper: the four names `docs/conf.py` binds to lists of strings. -/
def strListValueNames : List String :=
  [ "extensions", "templates_path", "exclude_patterns", "html_static_path" ]

/-- `True` when the binding list binds `n` to a non-empty string. -/
def nonEmptyStrAt (bs : List (String × PyValue)) (n : String) : Bool :=
  match bs.lookup n with
  | some (.str s) => !s.isEmpty
  | _ => false

/-- Claim C1, counterexample: it is false that two evaluations of the module
in any two environments bind every configuration name to identical values —
`version` is bound to whatever string `merlon.version()` returned, which
differs between environments. -/
theorem conf_values_not_all_static :
    ¬ (∀ e₁ e₂ b₁ b₂, evalConf e₁ = .ok b₁ → evalConf e₂ = .ok b₂ → b₁ = b₂) := by
  intro h
  have hb := h ⟨some ⟨some "0.1"⟩⟩ ⟨some ⟨some "0.2"⟩⟩
    (confBindings "0.1") (confBindings "0.2") rfl rfl
  have h2 : (confBindings "0.1").lookup "version" =
      (confBindings "0.2").lookup "version" := by rw [hb]
  rw [show (confBindings "0.1").lookup "version" = some (.str "0.1") from rfl,
      show (confBindings "0.2").lookup "version" = some (.str "0.2") from rfl] at h2
  injection h2 with h3
  injection h3 with h4
  exact absurd h4 (by decide)

/-- Claim C1, amended: every top-level configuration value except `version`
is a static constant — evaluating the module in any two environments binds
every configuration name other than `version` to identical values, while
`version` is bound to the result of the `merlon.version()` call. -/
theorem conf_values_static_except_version :
    ∀ v₁ v₂ : String,
      evalConf ⟨some ⟨some v₁⟩⟩ = .ok (confBindings v₁) ∧
      (confBindings v₁).filter (fun p => p.1 != "version") =
        (confBindings v₂).filter (fun p => p.1 != "version") :=
  fun _ _ => ⟨rfl, rfl⟩

/-- Claim C2, counterexample: it is false that evaluating the module
succeeds in every environment — in an environment where the `merlon`
package is not importable, evaluation raises. -/
theorem conf_eval_can_fail :
    ¬ (∀ env : Env, ∃ bs, evalConf env = .ok bs) := by
  intro h
  obtain ⟨bs, hbs⟩ := h ⟨none⟩
  simp [evalConf] at hbs

/-- Claim C2, amended: evaluation of the module can fail — it raises an
error when `merlon` cannot be imported and an attribute error when `merlon`
lacks a callable `version`; in every environment where `merlon` can be
imported and exposes `version`, evaluation completes without raising. -/
theorem conf_eval_fail_modes :
    evalConf ⟨none⟩ = .error .importError ∧
    evalConf ⟨some ⟨none⟩⟩ = .error .attributeError ∧
    ∀ s : String, evalConf ⟨some ⟨some s⟩⟩ = .ok (confBindings s) :=
  ⟨rfl, rfl, fun _ => rfl⟩

/-- Claim C3: after the configuration module is evaluated, every one of the
fourteen top-level names the specification lists is bound to a value. -/
theorem conf_binds_all_spec_names :
    ∀ ver : String,
      evalConf ⟨some ⟨some ver⟩⟩ = .ok (confBindings ver) ∧
      specNames.all (fun n => ((confBindings ver).lookup n).isSome) = true :=
  fun _ => ⟨rfl, rfl⟩

/-- Claim C4: every configured value has one of the three expected shapes —
`project`, `copyright`, `author`, `version`, `html_theme`, `html_logo`,
`html_favicon`, `autoclass_content` are strings; `extensions`,
`templates_path`, `exclude_patterns`, `html_static_path` are lists of
strings; and `html_theme_options` is a mapping. -/
theorem conf_value_shapes :
    ∀ ver : String,
      strValueNames.all
        (fun n => boundWithShape (confBindings ver) n PyValue.isStr) = true ∧
      strListValueNames.all
        (fun n => boundWithShape (confBindings ver) n PyValue.isStrList) = true ∧
      boundWithShape (confBindings ver) "html_theme_options" PyValue.isDict = true :=
  fun _ => ⟨rfl, rfl, rfl⟩

/-- Claim C5: the configuration values are well-formed inputs to the
documentation generator — every value has the expected shape for its name,
and `project`, `author` and `html_theme` are bound to non-empty strings. -/
theorem conf_values_well_formed :
    ∀ ver : String,
      (strValueNames.all
          (fun n => boundWithShape (confBindings ver) n PyValue.isStr)
        && strListValueNames.all
          (fun n => boundWithShape (confBindings ver) n PyValue.isStrList)
        && boundWithShape (confBindings ver) "html_theme_options" PyValue.isDict
        && nonEmptyStrAt (confBindings ver) "project"
        && nonEmptyStrAt (confBindings ver) "author"
        && nonEmptyStrAt (confBindings ver) "html_theme") = true :=
  fun _ => rfl

/-- Claim C6, counterexample: it is false that the supplied repository
contains two distinct source files that are near-identical copies — the
supplied source contains no two distinct files at all. -/
theorem source_not_duplicated :
    ¬ ∃ f₁ f₂, f₁ ∈ sourceFiles ∧ f₂ ∈ sourceFiles ∧ f₁ ≠ f₂ := by
  rintro ⟨f₁, f₂, h₁, h₂, hne⟩
  simp [sourceFiles] at h₁ h₂
  exact hne (h₁.trans h₂.symm)

/-- Claim C6, amended: the provided source consists of a single
documentation-site build configuration file, `docs/conf.py`; it is not
repeated. -/
theorem source_single_file :
    sourceFiles = ["docs/conf.py"] ∧ sourceFiles.length = 1 :=
  ⟨rfl, rfl⟩

/-- Claim C7: `version` is not a literal — it is bound to the string the
`merlon.version()` call returned, its value varies with the environment,
and evaluation succeeds exactly in the environments where `merlon` can be
imported and exposes a callable `version`, raising an error otherwise. -/
theorem version_from_merlon_call :
    (∀ s : String, (confBindings s).lookup "version" = some (.str s)) ∧
    (∃ s₁ s₂ : String,
        (confBindings s₁).lookup "version" ≠ (confBindings s₂).lookup "version") ∧
    (∀ env : Env,
        (∃ bs, evalConf env = .ok bs) ↔ ∃ s, env.merlon = some ⟨some s⟩) ∧
    evalConf ⟨none⟩ = .error .importError ∧
    evalConf ⟨some ⟨none⟩⟩ = .error .attributeError := by
  refine ⟨fun _ => rfl, ⟨"0.1", "0.2", ?_⟩, ?_, rfl, rfl⟩
  · intro h
    rw [show (confBindings "0.1").lookup "version" = some (.str "0.1") from rfl,
        show (confBindings "0.2").lookup "version" = some (.str "0.2") from rfl] at h
    injection h with h'
    injection h' with h''
    exact absurd h'' (by decide)
  · intro env
    rcases env with ⟨m⟩
    rcases m with _ | ⟨v⟩
    · constructor
      · rintro ⟨bs, hbs⟩
        exact absurd hbs (by simp [evalConf])
      · rintro ⟨s, hs⟩
        exact absurd hs (by simp)
    · rcases v with _ | s
      · constructor
        · rintro ⟨bs, hbs⟩
          exact absurd hbs (by simp [evalConf])
        · rintro ⟨s, hs⟩
          simp at hs
      · constructor
        · intro _
          exact ⟨s, rfl⟩
        · intro _
          exact ⟨confBindings s, rfl⟩

/-- Claim C8: beyond the fourteen names the specification lists, the module
also binds `copybutton_prompt_text` to the string "$ " and
`copybutton_exclude` to the string ".linenos, .gp, .go", so the set of
names bound by the file strictly contains the specification's listed set. -/
theorem conf_binds_copybutton_names :
    ∀ ver : String,
      (confBindings ver).map Prod.fst = confNames ∧
      (confBindings ver).lookup "copybutton_prompt_text" = some (.str "$ ") ∧
      (confBindings ver).lookup "copybutton_exclude" =
        some (.str ".linenos, .gp, .go") ∧
      (specNames.all (fun n => confNames.contains n)
        && confNames.contains "copybutton_prompt_text"
        && confNames.contains "copybutton_exclude"
        && !specNames.contains "copybutton_prompt_text"
        && !specNames.contains "copybutton_exclude") = true :=
  fun _ => ⟨rfl, rfl, rfl, rfl⟩

/-- Claim C9: `html_theme_options` binds "analytics_id" to the non-empty
string "G-LCC88CM7GF" and "analytics_anonymize_ip" to True, so after
evaluation analytics collection is configured as enabled with IP
anonymization turned on. -/
theorem theme_options_analytics :
    ∀ ver : String,
      (confBindings ver).lookup "html_theme_options" = some (.dict themeOptions) ∧
      themeOptions.lookup "analytics_id" = some (.str "G-LCC88CM7GF") ∧
      ("G-LCC88CM7GF" : String) ≠ "" ∧
      themeOptions.lookup "analytics_anonymize_ip" = some (.bool true) :=
  fun _ => ⟨rfl, rfl, by decide, rfl⟩
